import Mathlib

/-!
Shallow embedding of `src/main.py` of the lite-llm-chat repository: a FastAPI
application with a single `POST /chat` endpoint that forwards a user message to
an external LiteLLM model and returns the generated reply, together with proofs
of the behavioural claims about it.

Modelling conventions:
* Python strings are Lean `String`s; `str.strip()` is `pyStrip`, built from the
  Unicode whitespace class that Python strips (`isPySpace`).
* The external inference capability `lite_llm_model.generate_response` is a
  function `Model := String → GenOutcome`: it returns a Python value
  (a string, or `None` — the source does not constrain its type) or raises an
  exception carrying a message string.
* The handler's observable outcome is `HandlerResult`: an HTTP 200 response
  carrying the reply, a raised `HTTPException` with status code and detail, or
  an exception escaping the handler unhandled (turned into a generic server
  error by the framework, with no handler-chosen detail).
* To reason about which arguments the model is invoked with, and about the
  process-wide model handle, the handler is embedded in an instrumented form
  `StepOut`: its result, the list of arguments passed to `generate_response`
  during the request (in order), and the process-wide model handle as it stands
  when the request completes.
-/

namespace LiteLLMChat

/-- Characters stripped by Python `str.strip()` with no arguments: exactly the
characters `c` with `c.isspace()` true, i.e. the Unicode whitespace class
(0x09–0x0D, 0x1C–0x1F, space, NEL, NBSP, ogham space mark, the 0x2000–0x200A
block, line/paragraph separators, narrow NBSP, math space, ideographic space). -/
def isPySpace (c : Char) : Bool :=
  decide ((0x09 ≤ c.toNat ∧ c.toNat ≤ 0x0D) ∨ (0x1C ≤ c.toNat ∧ c.toNat ≤ 0x1F) ∨
    c.toNat = 0x20 ∨ c.toNat = 0x85 ∨ c.toNat = 0xA0 ∨ c.toNat = 0x1680 ∨
    (0x2000 ≤ c.toNat ∧ c.toNat ≤ 0x200A) ∨ c.toNat = 0x2028 ∨ c.toNat = 0x2029 ∨
    c.toNat = 0x202F ∨ c.toNat = 0x205F ∨ c.toNat = 0x3000)

/-- Python `str.strip()` on the underlying character list: remove the longest
run of whitespace characters from the front and from the back. -/
def pyStripL (l : List Char) : List Char :=
  List.rdropWhile isPySpace (List.dropWhile isPySpace l)

/-- Python `str.strip()` on strings (`request.message.strip()` in the source). -/
def pyStrip (s : String) : String :=
  ⟨pyStripL s.data⟩

/-- A Python value returned by a successful `generate_response` call.  The
source does not constrain the model object, so the return value may be a
string or `None`. -/
inductive PyObj where
  | pstr (s : String)
  | pnone
deriving DecidableEq

/-- Outcome of one call to the external inference capability
`lite_llm_model.generate_response`: a returned value, or a raised exception
whose `str(e)` text is `msg`. -/
inductive GenOutcome where
  | ok (v : PyObj)
  | exn (msg : String)
deriving DecidableEq

/-- The model handle: an opaque capability exposing `generate_response`.
Deterministic stub models are functions from the input text to an outcome. -/
def Model : Type := String → GenOutcome

/-- Observable outcome of one request to the chat endpoint.

* `success r` — HTTP 200 whose JSON body carries `reply` equal to `r`
  (the handler returned `MessageResponse(reply=r)`).
* `httpError status detail` — the handler raised
  `HTTPException(status_code=status, detail=detail)`.
* `unhandledError` — an exception other than `HTTPException` escaped the
  handler (in the source this happens when `MessageResponse(reply=...)`
  rejects a non-string reply, since that constructor call sits outside the
  `try` block); the framework turns it into a generic server error with no
  handler-chosen detail. -/
inductive HandlerResult where
  | success (reply : String)
  | httpError (status : Nat) (detail : String)
  | unhandledError
deriving DecidableEq

/-- Instrumented outcome of one handled request: the observable result, the
list of arguments with which `generate_response` was invoked during the
request, and the process-wide model handle as the request completes. -/
structure StepOut where
  result : HandlerResult
  calls : List String
  model : Model

/-- Embedding of `chat_endpoint` (src/main.py lines 53–84), instrumented with
the invocation trace of `generate_response` and with the process-wide handle
`lite_llm_model` (which the source reads but never reassigns).

Line-by-line: `user_message = request.message.strip()`; if the trimmed string
is falsy (empty), raise `HTTPException(400, "The 'message' field cannot be
empty.")` without calling the model; otherwise call
`lite_llm_model.generate_response(user_message)` inside `try`; a raised
exception `e` becomes `HTTPException(500, f"Error generating response: {e}")`;
on a returned value the handler evaluates `MessageResponse(reply=generated_reply)`
outside the `try`, which succeeds for a string reply and raises an unhandled
validation error for `None`. -/
def chat_endpoint (lite_llm_model : Model) (message : String) : StepOut :=
  let user_message := pyStrip message
  if user_message = "" then
    ⟨.httpError 400 "The 'message' field cannot be empty.", [], lite_llm_model⟩
  else
    match lite_llm_model user_message with
    | .exn e =>
        ⟨.httpError 500 ("Error generating response: " ++ e), [user_message], lite_llm_model⟩
    | .ok (.pstr r) => ⟨.success r, [user_message], lite_llm_model⟩
    | .ok .pnone => ⟨.unhandledError, [user_message], lite_llm_model⟩

/-- Shape of a `POST /chat` request body, as far as the `MessageRequest`
schema (src/main.py lines 25–29) distinguishes: a body carrying a string
`message` field, a body missing the field, or a body whose `message` is not a
string. -/
inductive RequestBody where
  | withMessage (m : String)
  | missingMessage
  | nonStringMessage
deriving DecidableEq

/-- Modelled from the spec: the framework schema validation of
`MessageRequest` (delegated by the source to FastAPI/pydantic, whose code is
not part of this repository).  A conforming body yields the `message` string
for the handler; a malformed body (missing or non-string `message`) is
rejected before the handler body runs. -/
def parse_request : RequestBody → Option String
  | .withMessage m => some m
  | .missingMessage => none
  | .nonStringMessage => none

/-- Modelled from the spec: the framework validation-failure status for a
malformed request body (FastAPI rejects schema violations with 422
Unprocessable Entity, a 4xx-class status). -/
def validationStatus : Nat := 422

/-- One full request against the route: framework schema validation first;
only a conforming body reaches `chat_endpoint`.  A malformed body is answered
with the framework validation status and the model is never invoked. -/
def handle_request (lite_llm_model : Model) (body : RequestBody) : StepOut :=
  match parse_request body with
  | some m => chat_endpoint lite_llm_model m
  | none =>
      ⟨.httpError validationStatus "Request body failed schema validation", [], lite_llm_model⟩

/-- Outcome of the external load capability `lite_llm.load_model()`: a model
handle, or a raised exception with text `msg`. -/
inductive LoadOutcome where
  | ok (model : Model)
  | exn (msg : String)

/-- Embedding of `initialize_lite_llm` (src/main.py lines 37–48): call
`lite_llm.load_model()`; on success return the model; on an exception `e`
raise `RuntimeError(f"Failed to load LiteLLM model: {e}")`. -/
def initialize_lite_llm : LoadOutcome → Except String Model
  | .ok m => .ok m
  | .exn e => .error ("Failed to load LiteLLM model: " ++ e)

/-- Embedding of the module-level statement
`lite_llm_model = initialize_lite_llm()` (src/main.py line 51): it runs once
at process startup, before the route exists.  `some m` means the process
started and serves requests with handle `m`; `none` means the module-level
exception aborted startup and the route never exists. -/
def startup (load_model : LoadOutcome) : Option Model :=
  match initialize_lite_llm load_model with
  | .ok m => some m
  | .error _ => none

/-- Serving a request requires a started process: the route is only bound
when `startup` produced a handle. -/
def serve (st : Model) (body : RequestBody) : StepOut :=
  handle_request st body

/-! ### Helper lemmas about `pyStrip` -/

/-- The first element surviving `dropWhile p` fails `p`. -/
theorem dropWhile_head_false {p : Char → Bool} :
    ∀ (l : List Char) (a : Char) (r : List Char), l.dropWhile p = a :: r → p a = false := by
  intro l
  induction l with
  | nil => intro a r h; simp [List.dropWhile] at h
  | cons b t ih =>
    intro a r h
    by_cases hb : p b
    · rw [List.dropWhile_cons_of_pos hb] at h
      exact ih a r h
    · rw [List.dropWhile_cons_of_neg hb] at h
      cases h
      simpa using hb

/-- Stripping is idempotent on character lists: the front of
`pyStripL l` is the front of `dropWhile isPySpace l` (a non-space when
non-empty, since `rdropWhile` takes a prefix), and the back is non-space by
`rdropWhile_idempotent`. -/
theorem pyStripL_idem (l : List Char) : pyStripL (pyStripL l) = pyStripL l := by
  unfold pyStripL
  have h1 : List.dropWhile isPySpace
      (List.rdropWhile isPySpace (List.dropWhile isPySpace l)) =
      List.rdropWhile isPySpace (List.dropWhile isPySpace l) := by
    rcases hS : List.rdropWhile isPySpace (List.dropWhile isPySpace l) with _ | ⟨a, r⟩
    · rfl
    · have hpre := List.rdropWhile_prefix isPySpace (List.dropWhile isPySpace l)
      rw [hS] at hpre
      obtain ⟨t, ht⟩ := hpre
      have ha : isPySpace a = false := dropWhile_head_false l a (r ++ t) ht.symm
      rw [List.dropWhile_cons_of_neg (by simp [ha])]
  rw [h1, List.rdropWhile_idempotent]

/-- Stripping is idempotent on strings. -/
theorem pyStrip_idem (s : String) : pyStrip (pyStrip s) = pyStrip s := by
  unfold pyStrip
  exact congrArg String.mk (pyStripL_idem s.data)

/-- The handler never changes the process-wide model handle. -/
theorem chat_endpoint_model_eq (m : Model) (msg : String) :
    (chat_endpoint m msg).model = m := by
  unfold chat_endpoint
  by_cases h : pyStrip msg = ""
  · simp [h]
  · simp only [h, if_neg h]
    cases m (pyStrip msg) with
    | ok v => cases v <;> rfl
    | exn e => rfl

/-- The full request pipeline never changes the process-wide model handle. -/
theorem handle_request_model_eq (m : Model) (body : RequestBody) :
    (handle_request m body).model = m := by
  unfold handle_request
  cases body with
  | withMessage s => exact chat_endpoint_model_eq m s
  | missingMessage => rfl
  | nonStringMessage => rfl

/-! ### Concrete stub models used by the witnesses -/

/-- Deterministic stub model that echoes its input with a marker. -/
def echoModel : Model := fun s => .ok (.pstr ("echo " ++ s))

/-- Stub model whose inference always raises an exception with text `boom`. -/
def boomModel : Model := fun _ => .exn "boom"

/-- Stub model that returns Python `None` instead of a string. -/
def pnoneModel : Model := fun _ => .ok .pnone

/-! ### Claim theorems -/

/-- Claim C1: for every message whose trimmed form is non-empty, when
`generate_response` succeeds with string `r` on the trimmed message, the
handler returns HTTP 200 with body reply exactly `r`; the model is invoked
exactly once, with exactly the trimmed message. -/
theorem chat_success_passthrough (model : Model) (m r : String)
    (hne : pyStrip m ≠ "") (hgen : model (pyStrip m) = .ok (.pstr r)) :
    (chat_endpoint model m).result = .success r ∧
    (chat_endpoint model m).calls = [pyStrip m] := by
  unfold chat_endpoint
  simp [if_neg hne, hgen]

/-- Witness for C1: the echo stub on the message with surrounding spaces. -/
theorem chat_success_passthrough_witness :
    pyStrip " hi " ≠ "" ∧ echoModel (pyStrip " hi ") = .ok (.pstr "echo hi") ∧
    (chat_endpoint echoModel " hi ").result = .success "echo hi" ∧
    (chat_endpoint echoModel " hi ").calls = [pyStrip " hi "] := by
  refine ⟨by decide, by decide, ?_⟩
  exact chat_success_passthrough echoModel " hi " "echo hi" (by decide) (by decide)

/-- Claim C2: for every message that trims to the empty string the handler
fails with HTTP 400 and the exact detail, and the model is never invoked. -/
theorem chat_empty_message (model : Model) (m : String) (he : pyStrip m = "") :
    (chat_endpoint model m).result =
      .httpError 400 "The 'message' field cannot be empty." ∧
    (chat_endpoint model m).calls = [] := by
  unfold chat_endpoint
  simp [he]

/-- Witness for C2: a whitespace-only message. -/
theorem chat_empty_message_witness :
    pyStrip "   " = "" ∧
    (chat_endpoint echoModel "   ").result =
      .httpError 400 "The 'message' field cannot be empty." ∧
    (chat_endpoint echoModel "   ").calls = [] := by
  refine ⟨by decide, ?_⟩
  exact chat_empty_message echoModel "   " (by decide)

/-- Claim C3: for every non-empty trimmed message, if `generate_response`
raises an exception with text `e`, the handler fails with HTTP 500 and detail
exactly the prefix text followed by `e` verbatim. -/
theorem chat_inference_error (model : Model) (m e : String)
    (hne : pyStrip m ≠ "") (hgen : model (pyStrip m) = .exn e) :
    (chat_endpoint model m).result =
      .httpError 500 ("Error generating response: " ++ e) := by
  unfold chat_endpoint
  simp only [if_neg hne, hgen]

/-- Witness for C3: the raising stub on message `hi`. -/
theorem chat_inference_error_witness :
    pyStrip "hi" ≠ "" ∧ boomModel (pyStrip "hi") = .exn "boom" ∧
    (chat_endpoint boomModel "hi").result =
      .httpError 500 "Error generating response: boom" := by
  refine ⟨by decide, by decide, ?_⟩
  have h := chat_inference_error boomModel "hi" "boom" (by decide) (by decide)
  simpa using h

/-- Claim C4: a request body that does not conform to the schema (missing or
non-string `message`) fails with a 4xx-class validation status and the model
is invoked zero times. -/
theorem malformed_body_rejected_before_model (model : Model) (body : RequestBody)
    (hmal : body = RequestBody.missingMessage ∨ body = RequestBody.nonStringMessage) :
    (∃ s d, (handle_request model body).result = .httpError s d ∧ 400 ≤ s ∧ s < 500) ∧
    (handle_request model body).calls = [] := by
  rcases hmal with h | h <;> subst h <;>
    exact ⟨⟨validationStatus, "Request body failed schema validation", rfl, by decide, by decide⟩, rfl⟩

/-- Witness for C4: the missing-field body against the echo stub. -/
theorem malformed_body_rejected_before_model_witness :
    (∃ s d, (handle_request echoModel RequestBody.missingMessage).result =
      .httpError s d ∧ 400 ≤ s ∧ s < 500) ∧
    (handle_request echoModel RequestBody.missingMessage).calls = [] :=
  malformed_body_rejected_before_model echoModel RequestBody.missingMessage (Or.inl rfl)

/-- Claim C5: the model is loaded exactly once at startup; a failed load
aborts startup so no request is ever served, and a successful load is the
unique handle every request is served with. -/
theorem startup_model_invariant (load : LoadOutcome) :
    ((startup load).isSome ↔ ∃ mh, load = LoadOutcome.ok mh) ∧
    (∀ mh, load = LoadOutcome.ok mh → startup load = some mh) ∧
    (∀ e, load = LoadOutcome.exn e →
      initialize_lite_llm load = .error ("Failed to load LiteLLM model: " ++ e) ∧
      startup load = none) := by
  refine ⟨?_, ?_, ?_⟩
  · cases load with
    | ok mh => simp [startup, initialize_lite_llm]
    | exn e => simp [startup, initialize_lite_llm]
  · intro mh h
    subst h
    rfl
  · intro e h
    subst h
    exact ⟨rfl, rfl⟩

/-- Witness for C5: a failing load aborts startup; a successful load stores
the loaded handle. -/
theorem startup_model_invariant_witness :
    (initialize_lite_llm (LoadOutcome.exn "boom") =
      .error ("Failed to load LiteLLM model: " ++ "boom") ∧
      startup (LoadOutcome.exn "boom") = none) ∧
    startup (LoadOutcome.ok echoModel) = some echoModel :=
  ⟨(startup_model_invariant (LoadOutcome.exn "boom")).2.2 "boom" rfl,
   (startup_model_invariant (LoadOutcome.ok echoModel)).2.1 echoModel rfl⟩

/-- Counterexample for C6: with a stub model returning Python `None` on the
message `hi`, the handler does not produce an HTTP 500 with an
`Error generating response:` detail; the response-model validation error
escapes the handler unhandled. -/
theorem chat_none_reply_counterexample :
    (chat_endpoint pnoneModel "hi").result = HandlerResult.unhandledError ∧
    ∀ e : String, (chat_endpoint pnoneModel "hi").result ≠
      HandlerResult.httpError 500 ("Error generating response: " ++ e) := by
  constructor
  · rfl
  · intro e h
    rw [show (chat_endpoint pnoneModel "hi").result = HandlerResult.unhandledError from rfl] at h
    exact HandlerResult.noConfusion h

/-- Amended C6: if `generate_response` returns successfully but its result is
`None` (not a string), the handler does not map this to an `InferenceError`:
the `MessageResponse` construction sits outside the `try` block, so the
resulting validation error propagates out of the handler unhandled and no
detail of the form `Error generating response: ...` is produced. -/
theorem chat_none_reply_unhandled (model : Model) (m : String)
    (hne : pyStrip m ≠ "") (hgen : model (pyStrip m) = .ok .pnone) :
    (chat_endpoint model m).result = HandlerResult.unhandledError := by
  unfold chat_endpoint
  simp only [if_neg hne, hgen]

/-- Witness for amended C6: the `None`-returning stub on message `hi`. -/
theorem chat_none_reply_unhandled_witness :
    pyStrip "hi" ≠ "" ∧ pnoneModel (pyStrip "hi") = .ok .pnone ∧
    (chat_endpoint pnoneModel "hi").result = HandlerResult.unhandledError := by
  refine ⟨by decide, by decide, ?_⟩
  exact chat_none_reply_unhandled pnoneModel "hi" (by decide) (by decide)

/-- Claim C7: the handler mutates no process-wide state: after any request —
including one whose inference call raises — the process-wide model handle is
exactly the handle the request started with. -/
theorem handler_no_global_mutation (model : Model) (body : RequestBody) (m : String) :
    (handle_request model body).model = model ∧
    (chat_endpoint model m).model = model :=
  ⟨handle_request_model_eq model body, chat_endpoint_model_eq model m⟩

/-- Claim C8: with a deterministic stub the handler is deterministic: running
the same request again, from the process state the first run left behind,
yields an identical instrumented outcome (same result, same calls, same
handle). -/
theorem handler_deterministic_replay (model : Model) (body : RequestBody) :
    handle_request (handle_request model body).model body = handle_request model body := by
  rw [handle_request_model_eq]

/-- Claim C9: the inference capability is only ever invoked with a non-empty
string that has no leading or trailing whitespace. -/
theorem model_called_only_with_trimmed_nonempty (model : Model) (m s : String)
    (hs : s ∈ (chat_endpoint model m).calls) :
    s ≠ "" ∧ pyStrip s = s := by
  unfold chat_endpoint at hs
  by_cases h : pyStrip m = ""
  · simp [h] at hs
  · simp only [if_neg h] at hs
    have hsm : s = pyStrip m := by
      cases hg : model (pyStrip m) with
      | ok v =>
        cases v with
        | pstr r => rw [hg] at hs; simpa using hs
        | pnone => rw [hg] at hs; simpa using hs
      | exn e => rw [hg] at hs; simpa using hs
    subst hsm
    exact ⟨h, pyStrip_idem m⟩

/-- Witness for C9: the echo stub is called with the trimmed message `hi`,
which is non-empty and strips to itself. -/
theorem model_called_only_with_trimmed_nonempty_witness :
    "hi" ∈ (chat_endpoint echoModel " hi ").calls ∧
    ("hi" : String) ≠ "" ∧ pyStrip "hi" = "hi" := by
  refine ⟨by decide, ?_⟩
  exact model_called_only_with_trimmed_nonempty echoModel " hi " "hi" (by decide)

/-- Claim C10: the handler depends on the message only through its trimmed
form: a message and its trimmed form produce identical instrumented outcomes
against any model. -/
theorem handler_depends_only_on_trimmed (model : Model) (m : String) :
    chat_endpoint model (pyStrip m) = chat_endpoint model m := by
  unfold chat_endpoint
  rw [pyStrip_idem]

end LiteLLMChat
